import Mathlib

/-!
Shallow embedding of the `saethlin/hdf5` reader (src/parse.rs, src/lib.rs).

Bytes are modelled as `Nat` (actual file bytes are < 256; little-endian
composition never overflows because values are mathematical naturals).
A fallible computation is an `RRes`: `ok` carries the value, `err` a nom
parse error (payloads abstracted to the incomplete/other distinction),
and `panicked` a Rust panic (from `unimplemented!`, `panic!`, unchecked
`usize` subtraction, out-of-range slicing, map indexing, or `unwrap`).
A nom parser over a byte slice returns the remaining slice plus a value.
-/

/-- A nom error, with payloads abstracted: `incomplete` is
`Err::Incomplete` (a streaming parser demanded more input than the slice
holds), `other` is every `Err::Error`/`Err::Failure` (tag mismatch etc.). -/
inductive NomErr where
  | incomplete
  | other
  deriving DecidableEq, Repr

/-- Outcome of a fallible Rust computation: success, a returned parse
error, or a panic. -/
inductive RRes (α : Type) where
  | ok (val : α)
  | err (e : NomErr)
  | panicked (msg : String)
  deriving DecidableEq, Repr

/-- A nom-style parser: consumes a byte slice, yields the rest and a value. -/
def NParser (α : Type) : Type := List Nat → RRes (List Nat × α)

/-- Monadic sequencing of fallible results; errors and panics propagate
exactly as Rust's `?` and unwinding do. -/
def rbind {α β : Type} (r : RRes α) (f : α → RRes β) : RRes β :=
  match r with
  | .ok v => f v
  | .err e => .err e
  | .panicked m => .panicked m

/-- Little-endian value of a byte list (first byte least significant),
mirroring nom's `le_uXX` on the bytes it consumes. -/
def leVal : List Nat → Nat
  | [] => 0
  | b :: r => b + 256 * leVal r

/-- Model of streaming `take(n)`: `Incomplete` when the slice is shorter
than `n`, otherwise split. -/
def takeN (n : Nat) : NParser (List Nat) := fun input =>
  if n ≤ input.length then .ok (input.drop n, input.take n) else .err .incomplete

/-- Model of streaming `tag(bytes)`: succeed iff the slice starts with the
literal bytes (error payloads collapsed to `NomErr.other`). -/
def tagN (bs : List Nat) : NParser Unit := fun input =>
  if input.take bs.length = bs then .ok (input.drop bs.length, ()) else .err .other

/-- Model of `nom::number::streaming::le_u8`. -/
def le_u8 : NParser Nat := fun input =>
  match input with
  | [] => .err .incomplete
  | b :: r => .ok (r, b)

/-- Model of `nom::number::streaming::le_u16`. -/
def le_u16 : NParser Nat := fun input =>
  match input with
  | b0 :: b1 :: r => .ok (r, b0 + 256 * b1)
  | _ => .err .incomplete

/-- Model of `nom::number::streaming::le_u24`. -/
def le_u24 : NParser Nat := fun input =>
  match input with
  | b0 :: b1 :: b2 :: r => .ok (r, b0 + 256 * (b1 + 256 * b2))
  | _ => .err .incomplete

/-- Model of `nom::number::streaming::le_u32`. -/
def le_u32 : NParser Nat := fun input =>
  match input with
  | b0 :: b1 :: b2 :: b3 :: r => .ok (r, b0 + 256 * (b1 + 256 * (b2 + 256 * b3)))
  | _ => .err .incomplete

/-- Model of `nom::number::streaming::le_u64`: demands 8 bytes, else
`Incomplete` — this demand is what breaks `address(n)` for `n < 8`. -/
def le_u64 : NParser Nat := fun input =>
  if 8 ≤ input.length then .ok (input.drop 8, leVal (input.take 8)) else .err .incomplete

/-- Model of `nom::multi::count(p, n)`: run `p` exactly `n` times. -/
def countN {α : Type} (p : NParser α) : Nat → NParser (List α)
  | 0 => fun input => .ok (input, [])
  | n + 1 => fun input =>
      rbind (p input) fun (i1, x) =>
        rbind (countN p n i1) fun (i2, xs) => .ok (i2, x :: xs)

/-- Checked `usize` subtraction: Rust's `a - b` panics on underflow. -/
def csub (a b : Nat) : RRes Nat :=
  if b ≤ a then .ok (a - b) else .panicked "attempt to subtract with overflow"

/-- Rust `&input[k..]`: panics when `k` exceeds the slice length. -/
def sliceFrom (input : List Nat) (k : Nat) : RRes (List Nat) :=
  if k ≤ input.length then .ok (input.drop k) else .panicked "range start index out of range"

/-- Model of `fn address(len) = map_parser(take(len), le_u64)` from
src/parse.rs: take `len` bytes, then run the *streaming* `le_u64` on just
those bytes (so it demands 8 of them). -/
def address (len : Nat) : NParser Nat := fun input =>
  rbind (takeN len input) fun (rest, bytes) =>
    rbind (le_u64 bytes) fun (_, v) => .ok (rest, v)

/-- Symbol-table entry record (src/parse.rs `SymbolTableEntry`). -/
structure SymbolTableEntry where
  link_name_offset : Nat
  object_header_address : Nat
  cache_type : Nat
  address_of_btree : Nat
  address_of_name_heap : Nat
  deriving DecidableEq, Repr

/-- Superblock record (src/parse.rs `Hdf5Superblock`). -/
structure Hdf5Superblock where
  superblock_version : Nat
  free_space_storage_version : Nat
  root_group_symbol_table_entry_version : Nat
  shared_header_message_format_version : Nat
  offset_size : Nat
  length_size : Nat
  group_leaf_node_k : Nat
  group_internal_node_k : Nat
  file_consistency_flags : Nat
  base_address : Nat
  address_of_file_free_space_info : Nat
  end_of_file_address : Nat
  driver_information_block_address : Nat
  root_group_symbol_table_entry : SymbolTableEntry
  deriving DecidableEq, Repr

/-- Model of `symbol_table_entry` (src/parse.rs): two addresses, a u32
cache type, a four-zero tag, two more addresses. -/
def symbol_table_entry (offset_size : Nat) : NParser SymbolTableEntry := fun input =>
  rbind (address offset_size input) fun (i1, link_name_offset) =>
    rbind (address offset_size i1) fun (i2, object_header_address) =>
      rbind (le_u32 i2) fun (i3, cache_type) =>
        rbind (tagN [0, 0, 0, 0] i3) fun (i4, _) =>
          rbind (address offset_size i4) fun (i5, address_of_btree) =>
            rbind (address offset_size i5) fun (i6, address_of_name_heap) =>
              .ok (i6, { link_name_offset := link_name_offset,
                         object_header_address := object_header_address,
                         cache_type := cache_type,
                         address_of_btree := address_of_btree,
                         address_of_name_heap := address_of_name_heap })

/-- Model of `superblock` (src/parse.rs): magic, version bytes (the
superblock version byte is read but never validated), sizes, k values,
flags, four addresses, root symbol-table entry. -/
def superblock : NParser Hdf5Superblock := fun input =>
  rbind (tagN [0x89, 0x48, 0x44, 0x46, 0x0d, 0x0a, 0x1a, 0x0a] input) fun (i0, _) =>
    rbind (le_u8 i0) fun (i1, superblock_version) =>
      rbind (le_u8 i1) fun (i2, free_space_storage_version) =>
        rbind (le_u8 i2) fun (i3, root_group_symbol_table_entry_version) =>
          rbind (tagN [0] i3) fun (i4, _) =>
            rbind (le_u8 i4) fun (i5, shared_header_message_format_version) =>
              rbind (le_u8 i5) fun (i6, offset_size) =>
                rbind (le_u8 i6) fun (i7, length_size) =>
                  rbind (tagN [0] i7) fun (i8, _) =>
                    rbind (le_u16 i8) fun (i9, group_leaf_node_k) =>
                      rbind (le_u16 i9) fun (i10, group_internal_node_k) =>
                        rbind (le_u32 i10) fun (i11, file_consistency_flags) =>
                          rbind (address offset_size i11) fun (i12, base_address) =>
                            rbind (address offset_size i12) fun (i13, address_of_file_free_space_info) =>
                              rbind (address offset_size i13) fun (i14, end_of_file_address) =>
                                rbind (address offset_size i14) fun (i15, driver_information_block_address) =>
                                  rbind (symbol_table_entry offset_size i15) fun (i16, root_group_symbol_table_entry) =>
                                    .ok (i16, ({
                                      superblock_version := superblock_version,
                                      free_space_storage_version := free_space_storage_version,
                                      root_group_symbol_table_entry_version := root_group_symbol_table_entry_version,
                                      shared_header_message_format_version := shared_header_message_format_version,
                                      offset_size := offset_size,
                                      length_size := length_size,
                                      group_leaf_node_k := group_leaf_node_k,
                                      group_internal_node_k := group_internal_node_k,
                                      file_consistency_flags := file_consistency_flags,
                                      base_address := base_address,
                                      address_of_file_free_space_info := address_of_file_free_space_info,
                                      end_of_file_address := end_of_file_address,
                                      driver_information_block_address := driver_information_block_address,
                                      root_group_symbol_table_entry := root_group_symbol_table_entry } : Hdf5Superblock))

/-- Model of `pad8` (src/parse.rs): round up to the next multiple of 8. -/
def pad8 (t : Nat) : Nat :=
  if t % 8 = 0 then t else t + (8 - t % 8)

/-- Strict UTF-8 decoding of a byte list into code points, modelling the
validity rules of Rust's `String::from_utf8` / `str` (rejects overlong
forms, surrogates, and code points above U+10FFFF). `none` means the
bytes are not valid UTF-8. -/
def utf8Decode : List Nat → Option (List Nat)
  | [] => some []
  | b0 :: rest =>
    if b0 < 0x80 then
      (utf8Decode rest).map (fun cps => b0 :: cps)
    else
      match rest with
      | [] => none
      | b1 :: rest2 =>
        if 0xC2 ≤ b0 ∧ b0 ≤ 0xDF then
          if 0x80 ≤ b1 ∧ b1 ≤ 0xBF then
            (utf8Decode rest2).map (fun cps => ((b0 - 0xC0) * 0x40 + (b1 - 0x80)) :: cps)
          else none
        else
          match rest2 with
          | [] => none
          | b2 :: rest3 =>
            if 0xE0 ≤ b0 ∧ b0 ≤ 0xEF then
              if (0x80 ≤ b1 ∧ b1 ≤ 0xBF) ∧ (0x80 ≤ b2 ∧ b2 ≤ 0xBF)
                  ∧ (b0 = 0xE0 → 0xA0 ≤ b1) ∧ (b0 = 0xED → b1 ≤ 0x9F) then
                (utf8Decode rest3).map
                  (fun cps => ((b0 - 0xE0) * 0x1000 + (b1 - 0x80) * 0x40 + (b2 - 0x80)) :: cps)
              else none
            else
              match rest3 with
              | [] => none
              | b3 :: rest4 =>
                if 0xF0 ≤ b0 ∧ b0 ≤ 0xF4 then
                  if (0x80 ≤ b1 ∧ b1 ≤ 0xBF) ∧ (0x80 ≤ b2 ∧ b2 ≤ 0xBF) ∧ (0x80 ≤ b3 ∧ b3 ≤ 0xBF)
                      ∧ (b0 = 0xF0 → 0x90 ≤ b1) ∧ (b0 = 0xF4 → b1 ≤ 0x8F) then
                    (utf8Decode rest4).map
                      (fun cps => ((b0 - 0xF0) * 0x40000 + (b1 - 0x80) * 0x1000
                                    + (b2 - 0x80) * 0x40 + (b3 - 0x80)) :: cps)
                  else none
                else none

/-- Dataspace message record (src/parse.rs `header::Dataspace`). -/
structure Dataspace where
  dimensionality : Nat
  flags : Nat
  dimensions : List Nat
  max_dimensions : Option (List Nat)
  deriving DecidableEq, Repr

/-- Datatype class (src/parse.rs `header::DatatypeClass`); `opaq` models
the class named for opacity, and `stringC` the string class. -/
inductive DatatypeClass where
  | fixedPoint
  | floatingPoint
  | time
  | stringC
  | bitfield
  | opaq
  | compound
  | reference
  | enumerated
  | variableLength (ty : Nat) (padding : Nat) (character_set : Nat)
  | array
  deriving DecidableEq, Repr

/-- Datatype message record (src/parse.rs `header::DataType`); the Rust
field `class` is spelled `dtClass` because `class` is a Lean keyword. -/
structure DataType where
  version : Nat
  dtClass : DatatypeClass
  class_bitfields : Nat
  size : Nat
  properties : List Nat
  deriving DecidableEq, Repr

/-- Fill-value message record (src/parse.rs `header::DataStorageFillValue`). -/
structure DataStorageFillValue where
  space_allocation_time : Nat
  fill_value_write_time : Nat
  fill_value_defined : Nat
  size : Nat
  fill_value : List Nat
  deriving DecidableEq, Repr

/-- Data-layout message record (src/parse.rs `header::DataLayout`). -/
structure DataLayout where
  address : Nat
  size : Nat
  deriving DecidableEq, Repr

/-- Attribute message record (src/parse.rs `header::Attribute`); the name
is kept as its byte list (the Rust code checked it is valid UTF-8). -/
structure AttributeMsg where
  datatype : DataType
  dataspace : Dataspace
  data : List Nat
  name : List Nat
  deriving DecidableEq, Repr

/-- Continuation message record (src/parse.rs `header::ObjectHeaderContinuation`). -/
structure ObjectHeaderContinuation where
  offset : Nat
  length : Nat
  deriving DecidableEq, Repr

/-- Symbol-table message record (src/parse.rs `header::SymbolTable`). -/
structure SymbolTableMsg where
  btree_address : Nat
  local_heap_address : Nat
  deriving DecidableEq, Repr

/-- Modification-time message record (src/parse.rs `header::ObjectModificationTime`). -/
structure ObjectModificationTime where
  seconds_after_unix_epoch : Nat
  deriving DecidableEq, Repr

/-- Header message sum (src/parse.rs `header::Message`). -/
inductive Message where
  | nil
  | dataspaceM (d : Dataspace)
  | dataTypeM (d : DataType)
  | dataStorageFillValue (d : DataStorageFillValue)
  | dataLayoutM (d : DataLayout)
  | attributeM (a : AttributeMsg)
  | objectHeaderContinuation (c : ObjectHeaderContinuation)
  | symbolTableM (s : SymbolTableMsg)
  | objectModificationTime (t : ObjectModificationTime)
  deriving DecidableEq, Repr

/-- Model of `datatype` (src/parse.rs): class-and-version byte, 24-bit
class bitfields, 32-bit size, then `message_size - 8` property bytes (an
unchecked `usize` subtraction); the class nibble is decoded through a
match whose default arm is `panic!("Invalid datatype class")`. -/
def datatype (input : List Nat) (message_size : Nat) : RRes (List Nat × DataType) :=
  rbind (le_u8 input) fun (i1, class_and_version) =>
    rbind (le_u24 i1) fun (i2, class_bitfields) =>
      rbind (le_u32 i2) fun (i3, size) =>
        rbind (csub message_size 8) fun nprops =>
          rbind (countN le_u8 nprops i3) fun (i4, properties) =>
            let version := class_and_version / 16
            let raw_class := class_and_version % 16
            rbind
              (if raw_class = 0 then .ok DatatypeClass.fixedPoint
               else if raw_class = 1 then .ok .floatingPoint
               else if raw_class = 2 then .ok .time
               else if raw_class = 3 then .ok .stringC
               else if raw_class = 4 then .ok .bitfield
               else if raw_class = 5 then .ok .opaq
               else if raw_class = 6 then .ok .compound
               else if raw_class = 7 then .ok .reference
               else if raw_class = 8 then .ok .enumerated
               else if raw_class = 9 then
                 .ok (.variableLength (class_bitfields % 8) (class_bitfields / 8 % 8)
                        (class_bitfields / 256 % 8))
               else if raw_class = 10 then .ok .array
               else .panicked "Invalid datatype class")
              fun dtClass =>
                .ok (i4, { version := version, dtClass := dtClass,
                           class_bitfields := class_bitfields, size := size,
                           properties := properties })

/-- Model of `dataspace` (src/parse.rs): version tag 1, dimensionality,
flags, one ignored byte, four unused bytes, then the dimensions (and max
dimensions iff `flags == 1`); `flags > 1` hits `unimplemented!`. -/
def dataspace (input : List Nat) : RRes (List Nat × Dataspace) :=
  rbind (tagN [1] input) fun (i1, _) =>
    rbind (le_u8 i1) fun (i2, dimensionality) =>
      rbind (le_u8 i2) fun (i3, flags) =>
        rbind (le_u8 i3) fun (i4, _ty) =>
          rbind (takeN 4 i4) fun (i5, _) =>
            rbind
              (if flags = 0 then
                 rbind (countN le_u64 dimensionality i5) fun (i6, dimensions) =>
                   .ok (i6, (dimensions, (none : Option (List Nat))))
               else if flags = 1 then
                 rbind (countN le_u64 dimensionality i5) fun (i6, dimensions) =>
                   rbind (countN le_u64 dimensionality i6) fun (i7, max_dimensions) =>
                     .ok (i7, (dimensions, some max_dimensions))
               else .panicked "Permutation indices are not supported")
              fun (i8, dims) =>
                .ok (i8, { dimensionality := dimensionality, flags := flags,
                           dimensions := dims.1, max_dimensions := dims.2 })

/-- Model of `fill_value` (src/parse.rs): only version 2 is handled,
with a conditional size and fill bytes when `fill_value_defined > 0`;
any other version hits `unimplemented!`. -/
def fill_value (input : List Nat) : RRes (List Nat × DataStorageFillValue) :=
  rbind (le_u8 input) fun (i1, version) =>
    if version = 2 then
      rbind (le_u8 i1) fun (i2, space_allocation_time) =>
        rbind (le_u8 i2) fun (i3, fill_value_write_time) =>
          rbind (le_u8 i3) fun (i4, fill_value_defined) =>
            rbind (if fill_value_defined > 0 then le_u32 i4 else .ok (i4, 0))
              fun (i5, size) =>
                rbind (if fill_value_defined > 0 then countN le_u8 size i5 else .ok (i5, []))
                  fun (i6, fill) =>
                    .ok (i6, { space_allocation_time := space_allocation_time,
                               fill_value_write_time := fill_value_write_time,
                               fill_value_defined := fill_value_defined,
                               size := size, fill_value := fill })
    else .panicked "Unsupported DataStorageFillValue version"

/-- Model of `data_layout` (src/parse.rs): version must be 3 and layout
class must be 1 (anything else hits `unimplemented!`), then an 8-byte
data address, an 8-byte size and 6 trailing bytes. -/
def data_layout (input : List Nat) : RRes (List Nat × DataLayout) :=
  rbind (le_u8 input) fun (i1, version) =>
    if version ≠ 3 then .panicked "Unsupported DataLayout version"
    else
      rbind (le_u8 i1) fun (i2, layout_class) =>
        if layout_class ≠ 1 then .panicked "Unsupported DataLayout class"
        else
          rbind (address 8 i2) fun (i3, data_address) =>
            rbind (address 8 i3) fun (i4, size) =>
              rbind (takeN 6 i4) fun (i5, _) =>
                .ok (i5, { address := data_address, size := size })

/-- Model of `attribute` (src/parse.rs): version tag `01 00`, three u16
sizes, then the name (peeked, trimmed at the first zero, checked to be
UTF-8 by `String::from_utf8(..).unwrap()`), the datatype and dataspace
sub-messages each advanced over by `pad8` of their size via `&input[k..]`
slicing, and finally `message_size - (8 + pad8(name) + pad8(datatype) +
pad8(dataspace))` raw value bytes — an unchecked `usize` subtraction. -/
def attributeMsg (input : List Nat) (message_size : Nat) : RRes (List Nat × AttributeMsg) :=
  rbind (tagN [1] input) fun (i1, _) =>
    rbind (tagN [0] i1) fun (i2, _) =>
      rbind (le_u16 i2) fun (i3, name_size) =>
        rbind (le_u16 i3) fun (i4, datatype_size) =>
          rbind (le_u16 i4) fun (i5, dataspace_size) =>
            rbind (takeN name_size i5) fun (_, nameBytes) =>
              let name := nameBytes.takeWhile (fun b => b > 0)
              rbind (if (utf8Decode name).isSome then .ok ()
                     else .panicked "called Result::unwrap on an Err value") fun _ =>
                rbind (sliceFrom i5 (pad8 name_size)) fun i6 =>
                  rbind (datatype i6 datatype_size) fun (_, dt) =>
                    rbind (sliceFrom i6 (pad8 datatype_size)) fun i7 =>
                      rbind (dataspace i7) fun (_, ds) =>
                        rbind (sliceFrom i7 (pad8 dataspace_size)) fun i8 =>
                          rbind (csub message_size
                                  (8 + pad8 name_size + pad8 datatype_size + pad8 dataspace_size))
                            fun data_len =>
                              rbind (takeN data_len i8) fun (i9, data) =>
                                .ok (i9, { datatype := dt, dataspace := ds,
                                           data := data, name := name })

/-- Model of `object_header_continuation` (src/parse.rs): two 8-byte
addresses, offset then length. -/
def object_header_continuation (input : List Nat) : RRes (List Nat × ObjectHeaderContinuation) :=
  rbind (address 8 input) fun (i1, offset) =>
    rbind (address 8 i1) fun (i2, length) =>
      .ok (i2, { offset := offset, length := length })

/-- Model of `symbol_table_message` (src/parse.rs): B-tree address then
local heap address, 8 bytes each. -/
def symbol_table_message (input : List Nat) : RRes (List Nat × SymbolTableMsg) :=
  rbind (address 8 input) fun (i1, btree_address) =>
    rbind (address 8 i1) fun (i2, local_heap_address) =>
      .ok (i2, { btree_address := btree_address, local_heap_address := local_heap_address })

/-- Model of `object_modification_time` (src/parse.rs): version tag 1,
three zero bytes, then seconds since the epoch. -/
def object_modification_time (input : List Nat) : RRes (List Nat × ObjectModificationTime) :=
  rbind (tagN [1] input) fun (i1, _) =>
    rbind (tagN [0, 0, 0] i1) fun (i2, _) =>
      rbind (le_u32 i2) fun (i3, seconds) =>
        .ok (i3, { seconds_after_unix_epoch := seconds })

/-- Model of `header_message` (src/parse.rs): 2-byte type, 2-byte size,
flags byte, three zero bytes, then a dispatch on the type; the Nil arm
returns without consuming the body, and the default arm is
`unimplemented!("unknown header message")` — a panic, not a skip. -/
def header_message (input : List Nat) : RRes (List Nat × Message) :=
  rbind (le_u16 input) fun (i1, message_type) =>
    rbind (le_u16 i1) fun (i2, message_size) =>
      rbind (le_u8 i2) fun (i3, _flags) =>
        rbind (tagN [0, 0, 0] i3) fun (i4, _) =>
          if message_type = 0x0 then .ok (i4, Message.nil)
          else if message_type = 0x1 then
            rbind (dataspace i4) fun (i5, d) => .ok (i5, Message.dataspaceM d)
          else if message_type = 0x3 then
            rbind (datatype i4 message_size) fun (i5, d) => .ok (i5, Message.dataTypeM d)
          else if message_type = 0x5 then
            rbind (fill_value i4) fun (i5, d) => .ok (i5, Message.dataStorageFillValue d)
          else if message_type = 0x8 then
            rbind (data_layout i4) fun (i5, d) => .ok (i5, Message.dataLayoutM d)
          else if message_type = 0xC then
            rbind (attributeMsg i4 message_size) fun (i5, a) => .ok (i5, Message.attributeM a)
          else if message_type = 0x10 then
            rbind (object_header_continuation i4) fun (i5, c) =>
              .ok (i5, Message.objectHeaderContinuation c)
          else if message_type = 0x11 then
            rbind (symbol_table_message i4) fun (i5, s) => .ok (i5, Message.symbolTableM s)
          else if message_type = 0x12 then
            rbind (object_modification_time i4) fun (i5, t) =>
              .ok (i5, Message.objectModificationTime t)
          else .panicked "unknown header message"

/-- The closed set of element types (src/lib.rs `Hdf5Dtype`). -/
inductive Hdf5Dtype where
  | F64
  | F32
  | I64
  | I32
  | StringDt
  | VlenString
  | BoolDt
  deriving DecidableEq, Repr

/-- Model of `Hdf5Dtype::from` (src/lib.rs): the (class, size) match with
`unimplemented!("dtype not supported yet")` as its default arm. The Rust
match arms are tried in order; they are disjoint by class, so the model
groups them by class. -/
def hdf5DtypeFrom (raw : DataType) : RRes Hdf5Dtype :=
  match raw.dtClass with
  | .fixedPoint =>
      if raw.size = 4 then .ok .I32
      else if raw.size = 8 then .ok .I64
      else .panicked "dtype not supported yet"
  | .floatingPoint =>
      if raw.size = 8 then .ok .F64
      else if raw.size = 4 then .ok .F32
      else .panicked "dtype not supported yet"
  | .stringC => .ok .StringDt
  | .enumerated =>
      if raw.size = 1 then .ok .BoolDt
      else .panicked "dtype not supported yet"
  | .variableLength ty padding _ =>
      if ty = 1 ∧ padding = 0 then .ok .VlenString
      else .panicked "dtype not supported yet"
  | _ => .panicked "dtype not supported yet"

/-- Attribute record of the index (src/lib.rs `Attribute`). -/
structure LibAttribute where
  dtype : Hdf5Dtype
  dimensions : List Nat
  data : List Nat
  deriving DecidableEq, Repr

/-- Model of `Attribute::from` (src/lib.rs): materialise the dtype (which
can panic) and keep dimensions and data. -/
def libAttributeFrom (parsed : AttributeMsg) : RRes LibAttribute :=
  rbind (hdf5DtypeFrom parsed.datatype) fun dtype =>
    .ok { dtype := dtype, dimensions := parsed.dataspace.dimensions, data := parsed.data }

/-- Dataset record of the index (src/lib.rs `Dataset`). Names are byte
lists throughout the index model. -/
structure Dataset where
  dimensions : List Nat
  dtype : Hdf5Dtype
  address : Nat
  size : Nat
  attributes : List (List Nat × LibAttribute)
  deriving DecidableEq, Repr

/-- A group of the index (src/lib.rs `Group`): name-keyed maps of
attributes, datasets and child groups. The `BTreeMap`s are modelled as
association lists with unique keys; renamed from the Rust `Group` to avoid the Mathlib class of that name. -/
inductive HGroup where
  | mk (attributes : List (List Nat × LibAttribute))
       (datasets : List (List Nat × Dataset))
       (groups : List (List Nat × HGroup)) : HGroup

/-- Attribute map of a group. -/
def HGroup.attributes : HGroup → List (List Nat × LibAttribute)
  | .mk a _ _ => a

/-- Dataset map of a group. -/
def HGroup.datasets : HGroup → List (List Nat × Dataset)
  | .mk _ d _ => d

/-- Child-group map of a group. -/
def HGroup.groups : HGroup → List (List Nat × HGroup)
  | .mk _ _ g => g

/-- Association-list lookup, modelling `BTreeMap::get`. -/
def lookupA {α : Type} : List (List Nat × α) → List Nat → Option α
  | [], _ => none
  | (k, v) :: rest, key => if k = key then some v else lookupA rest key

/-- Association-list insert, modelling `BTreeMap::insert` (replace the
value when the key exists, otherwise add the binding). -/
def insertA {α : Type} : List (List Nat × α) → List Nat → α → List (List Nat × α)
  | [], key, v => [(key, v)]
  | (k, w) :: rest, key, v =>
      if k = key then (k, v) :: rest else (k, w) :: insertA rest key v

/-- Byte index of the first `/` (byte 47), modelling `str::find('/')`. -/
def findSlash : List Nat → Option Nat
  | [] => none
  | b :: r => if b = 47 then some 0 else (findSlash r).map (fun i => i + 1)

mutual

/-- Model of `Group::find_dataset` (src/lib.rs): split the path at the
first `/`; prefer a dataset hit on the first segment, else index into the
child groups (a `BTreeMap` index panics with "no entry found for key"
when absent) and recurse on the remainder; without a `/`, index the
dataset map directly. -/
def findDataset : HGroup → List Nat → RRes Dataset
  | .mk _ datasets groups, path =>
    match findSlash path with
    | some i =>
      match lookupA datasets (path.take i) with
      | some d => .ok d
      | none => findInGroups groups (path.take i) (path.drop (i + 1))
    | none =>
      match lookupA datasets path with
      | some d => .ok d
      | none => .panicked "no entry found for key"

/-- The `BTreeMap` index `self.groups[first]` followed by the recursive
`find_dataset` call, fused into one walk over the association list. -/
def findInGroups : List (List Nat × HGroup) → List Nat → List Nat → RRes Dataset
  | [], _, _ => .panicked "no entry found for key"
  | (k, g) :: rest, first, remaining =>
    if k = first then findDataset g remaining else findInGroups rest first remaining

end

/-- An opened file (src/lib.rs `Hdf5File`): the read-only mapping and the
root group of the index. -/
structure Hdf5File where
  map : List Nat
  root_group : HGroup

/-- Model of `Hdf5File::view` (src/lib.rs): find the dataset, then return
the byte slice `[address, address + size)` of the mapping; slicing
panics when the range end exceeds the mapping length. -/
def view (f : Hdf5File) (dataset_path : List Nat) : RRes (List Nat) :=
  rbind (findDataset f.root_group dataset_path) fun ds =>
    if ds.address + ds.size ≤ f.map.length then
      .ok ((f.map.drop ds.address).take ds.size)
    else .panicked "range end index out of range"

/-- Model of `Hdf5File::attr` (src/lib.rs) up to the `T::convert` call:
look the attribute up by name in the root group (panicking with
"attribute not found" when absent), check its dtype against the
`T::from_types()` list (panicking when incompatible), and hand the dtype
and raw data to the conversion. -/
def attrGet (f : Hdf5File) (attribute_name : List Nat) (from_types : List Hdf5Dtype) :
    RRes (Hdf5Dtype × List Nat) :=
  match lookupA f.root_group.attributes attribute_name with
  | none => .panicked "attribute not found"
  | some a =>
      if from_types.contains a.dtype then .ok (a.dtype, a.data)
      else .panicked "attribute dtype not compatible with from_types"

/-- Model of the child-name read in `parse_group` (src/lib.rs lines
344-350): from `contents[link_name_offset + data_segment_address ..]`
take bytes while nonzero and map each byte with `u8 as char`, i.e. to the
code point of the same value. The result is the list of code points. -/
def readName (contents : List Nat) (addr : Nat) : RRes (List Nat) :=
  rbind (sliceFrom contents addr) fun tail =>
    .ok (tail.takeWhile (fun b => b != 0))

/-- Model of the message loop of `parse_group` (src/lib.rs lines
358-377): for each of the declared number of header messages, parse one
message frame from the cursor. A Continuation pushes the cursor position
after its frame onto the resume stack and moves the cursor to bytes
`[offset, offset + length)` of the mapping (Rust slicing panics when the
window exceeds the mapping). Any other message is appended to the
message list; if the cursor is then empty, the previous cursor is popped
(an empty stack hits `.expect(...)`, a panic). -/
def parseMessagesLoop (contents : List Nat) :
    Nat → List Nat → List (List Nat) → List Message → RRes (List Message)
  | 0, _, _, messages => .ok messages
  | n + 1, remaining, stack, messages =>
    rbind (header_message remaining) fun (remaining_after_parse, message) =>
      match message with
      | .objectHeaderContinuation c =>
          if c.offset + c.length ≤ contents.length then
            parseMessagesLoop contents n ((contents.drop c.offset).take c.length)
              (remaining_after_parse :: stack) messages
          else .panicked "range end index out of range"
      | _ =>
          let messages1 := messages ++ [message]
          if remaining_after_parse.isEmpty then
            match stack with
            | [] => .panicked "Ran out of data to parse, and no contiuation to resume from"
            | top :: stack1 => parseMessagesLoop contents n top stack1 messages1
          else parseMessagesLoop contents n remaining_after_parse stack messages1

/-- Model of the message loop of `Hdf5File::read` (src/lib.rs lines
267-292). It differs from `parseMessagesLoop` in one arm: an Attribute
message is folded into the root group's attribute map (via
`Attribute::from`, which can panic) and the cursor simply advances —
without the cursor-empty check, so an Attribute that exactly exhausts a
continuation window does not pop the resume stack. -/
def readMessagesLoop (contents : List Nat) :
    Nat → List Nat → List (List Nat) → List (List Nat × LibAttribute) → List Message →
    RRes (List (List Nat × LibAttribute) × List Message)
  | 0, _, _, attrs, messages => .ok (attrs, messages)
  | n + 1, remaining, stack, attrs, messages =>
    rbind (header_message remaining) fun (remaining_after_parse, message) =>
      match message with
      | .attributeM m =>
          rbind (libAttributeFrom m) fun la =>
            readMessagesLoop contents n remaining_after_parse stack
              (insertA attrs m.name la) messages
      | .objectHeaderContinuation c =>
          if c.offset + c.length ≤ contents.length then
            readMessagesLoop contents n ((contents.drop c.offset).take c.length)
              (remaining_after_parse :: stack) attrs messages
          else .panicked "range end index out of range"
      | _ =>
          let messages1 := messages ++ [message]
          if remaining_after_parse.isEmpty then
            match stack with
            | [] => .panicked "Ran out of data to parse, and no contiuation to resume from"
            | top :: stack1 => readMessagesLoop contents n top stack1 attrs messages1
          else readMessagesLoop contents n remaining_after_parse stack attrs messages1

/-- The element-materialisation table exactly as the spec states it
(section 4.8 of the spec): (FixedPoint,4) to i32, (FixedPoint,8) to i64,
(FloatingPoint,4) to f32, (FloatingPoint,8) to f64, (String,s) to a
fixed-length string, (Enumerated,1) to bool, and VariableLength with
ty=1, padding=0 to a variable-length string; nothing else. Used only to
compare the code's `Hdf5Dtype::from` against the spec's table. -/
def specDtypeTable (dt : DataType) : Option Hdf5Dtype :=
  match dt.dtClass with
  | .fixedPoint =>
      if dt.size = 4 then some .I32 else if dt.size = 8 then some .I64 else none
  | .floatingPoint =>
      if dt.size = 4 then some .F32 else if dt.size = 8 then some .F64 else none
  | .stringC => some .StringDt
  | .enumerated => if dt.size = 1 then some .BoolDt else none
  | .variableLength ty padding _ => if ty = 1 ∧ padding = 0 then some .VlenString else none
  | _ => none

/-- A 96-byte superblock image whose version byte is `v`: valid magic,
offset and length sizes 8, all other fields zero. -/
def mkSuperblockInput (v : Nat) : List Nat :=
  [0x89, 0x48, 0x44, 0x46, 0x0d, 0x0a, 0x1a, 0x0a] ++
    [v, 0, 0, 0, 0, 8, 8, 0] ++ List.replicate 80 0

/-- A 16-byte Modification-Time message frame carrying `k` as its
seconds value (frame type 0x12, body size 8). -/
def modFrame (k : Nat) : List Nat :=
  [0x12, 0, 8, 0, 0, 0, 0, 0, 1, 0, 0, 0, k, 0, 0, 0]

/-- A 24-byte Continuation message frame pointing at mapping bytes
`[off, off + len)` (frame type 0x10, body size 16). -/
def contFrame (off len : Nat) : List Nat :=
  [0x10, 0, 16, 0, 0, 0, 0, 0,
   off, 0, 0, 0, 0, 0, 0, 0,
   len, 0, 0, 0, 0, 0, 0, 0]

/-- Primary stream of the 20-message continuation scenario: 13
Modification-Time frames (seconds 1..13) followed by a Continuation to
mapping bytes `[232, 328)`; 232 bytes in all. -/
def c1Primary : List Nat :=
  ((List.range 13).map (fun i => modFrame (i + 1))).flatten ++ contFrame 232 96

/-- Continuation window of the 20-message scenario: 6 Modification-Time
frames (seconds 14..19), 96 bytes. -/
def c1Window : List Nat :=
  ((List.range 6).map (fun i => modFrame (i + 14))).flatten

/-- Mapping of the 20-message scenario: the primary stream at offset 0
and the continuation window at offset 232. -/
def c1Contents : List Nat := c1Primary ++ c1Window

/-- The 19 non-Continuation messages of the scenario, in their original
order (seconds 1..19). -/
def c1Expected : List Message :=
  (List.range 19).map (fun i => Message.objectModificationTime { seconds_after_unix_epoch := i + 1 })

/-- A 48-byte Attribute message frame (type 0x0C, body size 40): name
"a", datatype FixedPoint of size 4 (i32), scalar dataspace, 8 value
bytes. -/
def attrFrame : List Nat :=
  [0x0C, 0, 40, 0, 0, 0, 0, 0] ++
    ([1, 0, 2, 0, 8, 0, 8, 0] ++
     [0x61, 0, 0, 0, 0, 0, 0, 0] ++
     [0x10, 0, 0, 0, 4, 0, 0, 0] ++
     [1, 0, 0, 0, 0, 0, 0, 0] ++
     [1, 2, 3, 4, 5, 6, 7, 8])

/-- Primary stream of the attribute-at-window-end scenario: a
Continuation to mapping bytes `[40, 88)`, then a Nil frame, then 8
trailing slack bytes; 40 bytes in all. -/
def cReadPrimary : List Nat :=
  contFrame 40 48 ++ [0, 0, 0, 0, 0, 0, 0, 0] ++ [0, 0, 0, 0, 0, 0, 0, 0]

/-- Mapping of the attribute-at-window-end scenario: the primary stream
at offset 0 and the Attribute frame as the continuation window at offset
40. The header declares 3 messages: the Continuation, the Attribute
(which exactly exhausts the window), and the Nil frame after the
Continuation frame. -/
def cReadContents : List Nat := cReadPrimary ++ attrFrame

/-- An Attribute message body whose declared message size (16) is
smaller than `8 + pad8(name) + pad8(datatype) + pad8(dataspace)` = 24:
name size 0, an 8-byte FixedPoint datatype, an 8-byte scalar dataspace. -/
def c10BadInput : List Nat :=
  [1, 0, 0, 0, 8, 0, 8, 0] ++ [0x10, 0, 0, 0, 4, 0, 0, 0] ++ [1, 0, 0, 0, 0, 0, 0, 0]

/-- The parsed form of the superblock image `mkSuperblockInput v`. -/
def sbExpected (v : Nat) : Hdf5Superblock :=
  { superblock_version := v,
    free_space_storage_version := 0,
    root_group_symbol_table_entry_version := 0,
    shared_header_message_format_version := 0,
    offset_size := 8,
    length_size := 8,
    group_leaf_node_k := 0,
    group_internal_node_k := 0,
    file_consistency_flags := 0,
    base_address := 0,
    address_of_file_free_space_info := 0,
    end_of_file_address := 0,
    driver_information_block_address := 0,
    root_group_symbol_table_entry := ⟨0, 0, 0, 0, 0⟩ }

/-- The parsed form of the Attribute message inside `attrFrame`. -/
def expAttr : AttributeMsg :=
  { datatype := { version := 1, dtClass := .fixedPoint, class_bitfields := 0,
                  size := 4, properties := [] },
    dataspace := { dimensionality := 0, flags := 0, dimensions := [], max_dimensions := none },
    data := [1, 2, 3, 4, 5, 6, 7, 8], name := [0x61] }

/-- Success inversion for `rbind`: a successful bind factors through a
successful first step. -/
theorem rbind_ok {α β : Type} {r : RRes α} {f : α → RRes β} {b : β}
    (h : rbind r f = .ok b) : ∃ a, r = .ok a ∧ f a = .ok b := by
  cases r with
  | ok a => exact ⟨a, rfl, h⟩
  | err e => simp [rbind] at h
  | panicked m => simp [rbind] at h

/-- Success inversion for `csub`: a successful checked subtraction means
no underflow, and the value is the difference. -/
theorem csub_ok {a b c : Nat} (h : csub a b = .ok c) : b ≤ a ∧ c = a - b := by
  unfold csub at h
  split at h
  · exact ⟨by assumption, by cases h; rfl⟩
  · cases h

/-- Success inversion for `takeN`: a successful take returns exactly `n`
bytes. -/
theorem takeN_ok {n : Nat} {i : List Nat} {p : List Nat × List Nat}
    (h : takeN n i = .ok p) : p.2.length = n := by
  unfold takeN at h
  split at h
  · cases h
    simpa using by omega
  · cases h

/-- C1. Header-message parsing and continuations. In `parse_group` the
loop behaves as the claim states: on the concrete scenario whose header
declares 20 messages — 13 Modification-Time frames and a Continuation in
the primary stream, and 6 more Modification-Time frames in the window
`[232, 328)` — the loop parses 20 frames, moves the cursor to the window
on the Continuation, pops the saved cursor on exhausting the window, and
collects the 19 non-Continuation messages in their original order. In
`Hdf5File::read`, however, the Attribute arm lacks the pop-on-empty
check: on the scenario whose window is exactly one Attribute frame and
whose third declared message waits after the Continuation frame, the
twin `parse_group` loop pops and yields both remaining messages, while
the `read` loop leaves the exhausted window in place and fails with
`Incomplete` instead of resuming. -/
theorem C1_continuation_loops :
    parseMessagesLoop c1Contents 20 c1Primary [] [] = .ok c1Expected ∧
    parseMessagesLoop cReadContents 3 cReadPrimary [] [] =
      .ok [Message.attributeM expAttr, Message.nil] ∧
    readMessagesLoop cReadContents 3 cReadPrimary [] [] [] = .err .incomplete := by
  refine ⟨?_, ?_, ?_⟩
  · set_option maxRecDepth 8000 in decide
  · set_option maxRecDepth 8000 in decide
  · set_option maxRecDepth 8000 in decide

/-- C2. The `address(n)` combinator is `map_parser(take(n), le_u64)`
with the streaming `le_u64`, which demands 8 bytes: for `n` of 1, 2 or 4
it always fails with `Incomplete` even when the input holds `n` bytes,
instead of consuming `n` bytes and returning their little-endian value;
only `n = 8` behaves as the claim states. -/
theorem C2_address_combinator :
    address 1 [7] = .err .incomplete ∧
    address 2 [5, 1] = .err .incomplete ∧
    address 4 [1, 0, 0, 0] = .err .incomplete ∧
    address 8 [1, 0, 0, 0, 0, 0, 0, 0, 9] = .ok ([9], 1) := by
  decide

/-- C4 counterexample. A FixedPoint datatype of size 2 is not in the
materialisation table; the claim says it fails with
`UnsupportedDatatype(class, size, bitfields)`, but `Hdf5Dtype::from`
panics via `unimplemented!` — a panic, not a returned error (the crate's
error type has no such variant). -/
theorem C4_fixedpoint2_panics :
    hdf5DtypeFrom { version := 1, dtClass := .fixedPoint, class_bitfields := 0,
                    size := 2, properties := [] } = .panicked "dtype not supported yet" := by
  decide

/-- C4 amended. `Hdf5Dtype::from` realises exactly the claimed
(class, size) table — i32, i64, f32, f64, fixed string, bool, and
variable-length string for `ty = 1, padding = 0` — but every other
combination panics with `unimplemented!("dtype not supported yet")`
rather than failing with a structured `UnsupportedDatatype` error. -/
theorem C4_dtype_table (dt : DataType) :
    hdf5DtypeFrom dt =
      match specDtypeTable dt with
      | some x => .ok x
      | none => .panicked "dtype not supported yet" := by
  rcases dt with ⟨ver, cls, bf, size, props⟩
  cases cls <;> simp only [hdf5DtypeFrom, specDtypeTable] <;> try rfl
  · split_ifs <;> rfl
  · split_ifs <;> simp_all
  · split_ifs <;> rfl
  · split_ifs <;> rfl

/-- C5 counterexample. A superblock image whose version byte is 99
parses successfully — the claim says any nonzero version fails with
`UnsupportedVersion("superblock", v)`. -/
theorem C5_version99_accepted :
    superblock (mkSuperblockInput 99) = .ok ([], sbExpected 99) ∧
    (sbExpected 99).superblock_version = 99 := by
  exact ⟨rfl, rfl⟩

/-- C5 amended. The superblock parser reads the version byte but never
validates it: for every version value `v`, the 96-byte image
`mkSuperblockInput v` parses successfully with `superblock_version = v`
(the crate's error type has no `UnsupportedVersion` variant at all). -/
theorem C5_any_version_accepted (v : Nat) :
    superblock (mkSuperblockInput v) = .ok ([], sbExpected v) := rfl

/-- C3 counterexample. A message frame of type 0x02 (handled by real
HDF5 but not by this reader) makes `header_message` panic through
`unimplemented!("unknown header message")` — the claim says unhandled
types return Nil, consume the body, and are never fatal. -/
theorem C3_unknown_type_panics :
    header_message [2, 0, 0, 0, 0, 0, 0, 0] = .panicked "unknown header message" := by
  decide

/-- C3 amended. For every frame whose 16-bit type is outside the handled
set {0x00, 0x01, 0x03, 0x05, 0x08, 0x0C, 0x10, 0x11, 0x12},
`header_message` panics with `unimplemented!("unknown header message")`
instead of returning Nil; moreover even the handled Nil frame (type 0)
returns without consuming its declared body: the remaining input is the
whole body regardless of the declared size. -/
theorem C3_unhandled_types_panic :
    (∀ (t0 t1 s0 s1 fl : Nat) (body : List Nat),
      t0 + 256 * t1 ≠ 0x0 → t0 + 256 * t1 ≠ 0x1 → t0 + 256 * t1 ≠ 0x3 →
      t0 + 256 * t1 ≠ 0x5 → t0 + 256 * t1 ≠ 0x8 → t0 + 256 * t1 ≠ 0xC →
      t0 + 256 * t1 ≠ 0x10 → t0 + 256 * t1 ≠ 0x11 → t0 + 256 * t1 ≠ 0x12 →
      header_message (t0 :: t1 :: s0 :: s1 :: fl :: 0 :: 0 :: 0 :: body) =
        .panicked "unknown header message") ∧
    (∀ (s0 s1 fl : Nat) (body : List Nat),
      header_message (0 :: 0 :: s0 :: s1 :: fl :: 0 :: 0 :: 0 :: body) =
        .ok (body, Message.nil)) := by
  constructor
  · intro t0 t1 s0 s1 fl body h0 h1 h3 h5 h8 hC h10 h11 h12
    simp [header_message, le_u16, le_u8, tagN, rbind, h0, h1, h3, h5, h8, hC, h10, h11, h12]
  · intro s0 s1 fl body
    simp [header_message, le_u16, le_u8, tagN, rbind]

/-- C3 witness. The amended statement applied at the concrete type 0x02
frame with a nonempty body, and at a Nil frame with declared size 8. -/
theorem C3_unhandled_types_panic_witness :
    header_message (2 :: 0 :: 8 :: 0 :: 0 :: 0 :: 0 :: 0 :: [9, 9]) =
      .panicked "unknown header message" ∧
    header_message (0 :: 0 :: 8 :: 0 :: 0 :: 0 :: 0 :: 0 :: [9, 9]) =
      .ok ([9, 9], Message.nil) :=
  ⟨C3_unhandled_types_panic.1 2 0 8 0 0 [9, 9] (by decide) (by decide) (by decide) (by decide)
      (by decide) (by decide) (by decide) (by decide) (by decide),
   C3_unhandled_types_panic.2 8 0 0 [9, 9]⟩

/-- C6 counterexample. Lookup failures panic instead of signalling
errors: `find_dataset` on an empty root group panics with the
`BTreeMap` index message, `attr` on a missing name panics with
"attribute not found", and `attr` on an attribute whose dtype is not
accepted by the requested type panics on the compatibility check —
none of them produce `NotFound` or `TypeMismatch` error values. -/
theorem C6_lookup_panics_concrete :
    findDataset (.mk [] [] []) [120] = .panicked "no entry found for key" ∧
    attrGet ⟨[], .mk [] [] []⟩ [97] [.I32] = .panicked "attribute not found" ∧
    attrGet ⟨[], .mk [([97], ⟨.F64, [], []⟩)] [] []⟩ [97] [.I32] =
      .panicked "attribute dtype not compatible with from_types" := by
  refine ⟨by decide, by decide, by decide⟩

/-- C6 amended. Lookup failures are panics, not errors: `attr` panics
with "attribute not found" whenever the root group has no attribute of
the requested name, panics on the dtype compatibility check whenever the
attribute's dtype is not in `T::from_types()`, and `find_dataset` panics
with the `BTreeMap` index message whenever a slash-free path misses the
dataset map. -/
theorem C6_lookup_failures_panic :
    (∀ (f : Hdf5File) (name : List Nat) (ts : List Hdf5Dtype),
      lookupA f.root_group.attributes name = none →
      attrGet f name ts = .panicked "attribute not found") ∧
    (∀ (f : Hdf5File) (name : List Nat) (ts : List Hdf5Dtype) (a : LibAttribute),
      lookupA f.root_group.attributes name = some a →
      ts.contains a.dtype = false →
      attrGet f name ts = .panicked "attribute dtype not compatible with from_types") ∧
    (∀ (g : HGroup) (path : List Nat),
      findSlash path = none →
      lookupA g.datasets path = none →
      findDataset g path = .panicked "no entry found for key") := by
  refine ⟨?_, ?_, ?_⟩
  · intro f name ts h
    simp [attrGet, h]
  · intro f name ts a h hc
    simp [attrGet, h, hc]
    simpa using hc
  · intro g path hs hl
    cases g with
    | mk a ds gs => simp [findDataset, HGroup.datasets] at hl ⊢; simp [hs, hl]

/-- C6 witness. The amended statement applied to an empty root group
(missing attribute, missing dataset) and to a root F64 attribute read
through the i32-accepting type list. -/
theorem C6_lookup_failures_panic_witness :
    attrGet ⟨[], .mk [] [] []⟩ [98] [.I64] = .panicked "attribute not found" ∧
    attrGet ⟨[], .mk [([98], ⟨.F32, [], [1]⟩)] [] []⟩ [98] [.I64] =
      .panicked "attribute dtype not compatible with from_types" ∧
    findDataset (.mk [] [] []) [121] = .panicked "no entry found for key" :=
  ⟨C6_lookup_failures_panic.1 ⟨[], .mk [] [] []⟩ [98] [.I64] (by decide),
   C6_lookup_failures_panic.2.1 ⟨[], .mk [([98], ⟨.F32, [], [1]⟩)] [] []⟩ [98] [.I64]
     ⟨.F32, [], [1]⟩ (by decide) (by decide),
   C6_lookup_failures_panic.2.2 (.mk [] [] []) [121] (by decide) (by decide)⟩

/-- C7. Whenever the path walk finds a dataset and `view` returns a
slice, that slice is exactly mapping bytes `[address, address + size)`
and its length equals the dataset's recorded size. -/
theorem C7_view_slice_length (f : Hdf5File) (p : List Nat) (ds : Dataset) (out : List Nat)
    (hf : findDataset f.root_group p = .ok ds) (hv : view f p = .ok out) :
    out = (f.map.drop ds.address).take ds.size ∧ out.length = ds.size := by
  unfold view at hv
  rw [hf] at hv
  simp only [rbind] at hv
  split at hv
  · cases hv
    refine ⟨rfl, ?_⟩
    rw [List.length_take, List.length_drop]
    omega
  · cases hv

/-- C7 witness. The theorem applied to a 16-byte mapping holding one
dataset of address 4 and size 8. -/
theorem C7_view_slice_length_witness :
    ([7, 7, 7, 7, 7, 7, 7, 7] : List Nat) =
        ((List.replicate 16 7).drop 4).take 8 ∧
      ([7, 7, 7, 7, 7, 7, 7, 7] : List Nat).length = 8 :=
  C7_view_slice_length ⟨List.replicate 16 7, .mk [] [([100], ⟨[], .I32, 4, 8, []⟩)] []⟩
    [100] ⟨[], .I32, 4, 8, []⟩ [7, 7, 7, 7, 7, 7, 7, 7] (by decide) (by decide)

/-- Take-while over bytes stops exactly at the first zero: the bytes
before an explicit zero are returned whole and the zero and everything
after it are dropped. -/
theorem takeWhile_nonzero (name tail : List Nat) (h : ∀ b ∈ name, b ≠ 0) :
    (name ++ 0 :: tail).takeWhile (fun b => b != 0) = name := by
  induction name with
  | nil => simp
  | cons b bs ih =>
    have hb : b ≠ 0 := h b (by simp)
    have ihh := ih (fun x hx => h x (by simp [hx]))
    simp [List.takeWhile_cons, hb, ihh]

/-- When a path holds no slash, appending `/rest` puts the first slash
exactly at the path's length. -/
theorem findSlash_append_none (first rest : List Nat) (h : findSlash first = none) :
    findSlash (first ++ 47 :: rest) = some first.length := by
  induction first with
  | nil => simp [findSlash]
  | cons b bs ih =>
    by_cases hb : b = 47
    · simp [findSlash, hb] at h
    · have h' : findSlash bs = none := by
        cases hfs : findSlash bs with
        | none => rfl
        | some i => rw [findSlash, hfs] at h; simp [hb] at h
      simp [findSlash, hb, ih h']

/-- ASCII bytes are fixed points of UTF-8 decoding. -/
theorem utf8Decode_ascii (name : List Nat) (h : ∀ b ∈ name, b < 0x80) :
    utf8Decode name = some name := by
  induction name with
  | nil => rfl
  | cons b bs ih =>
    have hb : b < 0x80 := h b (by simp)
    have ihh := ih (fun x hx => h x (by simp [hx]))
    rw [utf8Decode.eq_def]
    simp [hb, ihh]

/-- C8 counterexample. The name bytes `C3 A9` (valid UTF-8 for one
two-byte character, code point 0xE9) are read by the code as the two
code points 0xC3 and 0xA9 — `u8 as char` per byte — while the claimed
ASCII/UTF-8 decoding yields the single code point 0xE9; the two decodings
disagree. -/
theorem C8_nonascii_name_not_utf8 :
    readName [0xC3, 0xA9, 0, 50] 0 = .ok [0xC3, 0xA9] ∧
    utf8Decode [0xC3, 0xA9] = some [0xE9] ∧
    ([0xC3, 0xA9] : List Nat) ≠ [0xE9] := by
  decide

/-- C8 amended. Reading a child name at a heap address takes the bytes
up to but not including the first zero and maps each byte to the
character of equal code value (`u8 as char`, not UTF-8-lossy decoding);
the result therefore never depends on the bytes after the first zero,
and for ASCII names the byte-as-character reading agrees with UTF-8
decoding. -/
theorem C8_name_decoding :
    (∀ (pre name tail : List Nat), (∀ b ∈ name, b ≠ 0) →
      readName (pre ++ (name ++ 0 :: tail)) pre.length = .ok name) ∧
    (∀ name : List Nat, (∀ b ∈ name, b < 0x80) → utf8Decode name = some name) := by
  constructor
  · intro pre name tail h
    unfold readName sliceFrom
    rw [if_pos (by simp)]
    simp only [rbind]
    rw [List.drop_left, takeWhile_nonzero name tail h]
  · exact utf8Decode_ascii

/-- C8 witness. The amended statement applied to the heap bytes
"\x09hi\x00\x07" at offset 1 and to the ASCII name "hi". -/
theorem C8_name_decoding_witness :
    readName ([9] ++ ([104, 105] ++ 0 :: [7])) 1 = .ok [104, 105] ∧
    utf8Decode [104, 105] = some [104, 105] :=
  ⟨C8_name_decoding.1 [9] [104, 105] [7] (by decide),
   C8_name_decoding.2 [104, 105] (by decide)⟩

/-- C9. When a group's dataset map holds a name equal to a non-terminal
path segment, `find_dataset` returns that dataset and ignores every
remaining segment: for a path `first/rest` with no slash in `first` and a
dataset hit on `first`, the hit is returned no matter what `rest` says. -/
theorem C9_dataset_shadows_path (a : List (List Nat × LibAttribute))
    (ds : List (List Nat × Dataset)) (gs : List (List Nat × HGroup))
    (first rest : List Nat) (d : Dataset)
    (hns : findSlash first = none) (hit : lookupA ds first = some d) :
    findDataset (.mk a ds gs) (first ++ 47 :: rest) = .ok d := by
  have hfs := findSlash_append_none first rest hns
  rw [findDataset, hfs]
  have ht : (first ++ 47 :: rest).take first.length = first := List.take_left first _
  simp [ht, hit]

/-- C9 witness. The theorem applied to a root group holding dataset "d"
(byte 100) and the path "d/x" (bytes 100, 47, 120): the dataset is
returned even though the suffix names nothing. -/
theorem C9_dataset_shadows_path_witness :
    findDataset (.mk [] [([100], ⟨[], .I32, 0, 4, []⟩)] []) ([100] ++ 47 :: [120]) =
      .ok ⟨[], .I32, 0, 4, []⟩ :=
  C9_dataset_shadows_path [] [([100], ⟨[], .I32, 0, 4, []⟩)] [] [100] [120]
    ⟨[], .I32, 0, 4, []⟩ (by decide) (by decide)

/-- C10. The Attribute message parser's data length is the unchecked
subtraction `message_size - (8 + pad8(name_size) + pad8(datatype_size)
+ pad8(dataspace_size))`: every successful parse satisfies the
precondition (the padded sizes fit in the message size) and returns a
value slice of exactly that difference in length; and on an otherwise
well-formed body whose message size (16) violates the precondition
(8 + 0 + 8 + 8 = 24), the parser panics on the subtraction instead of
returning a parse error. -/
theorem C10_attribute_size_precondition :
    (∀ (b0 b1 b2 b3 b4 b5 : Nat) (body rest : List Nat) (msize : Nat) (v : AttributeMsg),
      attributeMsg ([1, 0, b0, b1, b2, b3, b4, b5] ++ body) msize = .ok (rest, v) →
      8 + pad8 (b0 + 256 * b1) + pad8 (b2 + 256 * b3) + pad8 (b4 + 256 * b5) ≤ msize ∧
      v.data.length =
        msize - (8 + pad8 (b0 + 256 * b1) + pad8 (b2 + 256 * b3) + pad8 (b4 + 256 * b5))) ∧
    attributeMsg c10BadInput 16 = .panicked "attempt to subtract with overflow" := by
  constructor
  · intro b0 b1 b2 b3 b4 b5 body rest msize v h
    simp [attributeMsg, tagN, le_u16, rbind] at h
    repeat split at h
    all_goals try exact RRes.noConfusion h
    rename_i x1 dlen hsub x0 ptk htk
    injection h with hpair
    rw [Prod.mk.injEq] at hpair
    obtain h2 := hpair.2
    subst h2
    refine ⟨(csub_ok hsub).1, ?_⟩
    have hlen := takeN_ok htk
    dsimp only
    rw [hlen]
    exact (csub_ok hsub).2
  · decide

/-- C10 witness. The general statement applied to a successful parse:
name size 2, datatype size 8, dataspace size 8, message size 40, so the
value slice has 40 - (8 + 8 + 8 + 8) = 8 bytes. -/
theorem C10_attribute_size_precondition_witness :
    8 + pad8 (2 + 256 * 0) + pad8 (8 + 256 * 0) + pad8 (8 + 256 * 0) ≤ 40 ∧
    expAttr.data.length =
      40 - (8 + pad8 (2 + 256 * 0) + pad8 (8 + 256 * 0) + pad8 (8 + 256 * 0)) :=
  C10_attribute_size_precondition.1 2 0 8 0 8 0
    ([0x61, 0, 0, 0, 0, 0, 0, 0] ++ [0x10, 0, 0, 0, 4, 0, 0, 0] ++
     [1, 0, 0, 0, 0, 0, 0, 0] ++ [1, 2, 3, 4, 5, 6, 7, 8])
    [] 40 expAttr (by decide)
